import Mathlib

/-!
Verification of the electricity-theft-detection dashboard's scoring and
route-handler logic, shallowly embedded in Lean 4.

JavaScript / Python numbers are modelled as exact rationals (`ℚ`), optional
values as `Option`, and each Next.js route handler as a pure function from
its request data and the outcome of its outbound calls to its response.
-/

namespace TheftDetection

/-- The five per-model confidence scores attached to one consumer. -/
structure ModelScores where
  autoencoder : ℚ
  lstm : ℚ
  xgboost : ℚ
  randomforest : ℚ
  isolationforest : ℚ
  deriving DecidableEq, Repr

/-- A record of per-model ensemble weights. -/
structure EnsembleWeights where
  autoencoder : ℚ
  lstm : ℚ
  xgboost : ℚ
  randomforest : ℚ
  isolationforest : ℚ
  deriving DecidableEq, Repr

/-- The backend's `ENSEMBLE_WEIGHTS` dictionary (documented threshold-tuning
notes, `ENSEMBLE_WEIGHTS = {'autoencoder': 0.25, 'lstm': 0.25,
'xgboost': 0.20, 'randomforest': 0.15, 'isolationforest': 0.15}`). -/
def ENSEMBLE_WEIGHTS : EnsembleWeights :=
  { autoencoder := 0.25
    lstm := 0.25
    xgboost := 0.20
    randomforest := 0.15
    isolationforest := 0.15 }

/-- The inline `ENSEMBLE_WEIGHTS` record inside `pipeline_config` that the
`GET /api/pipeline` route handler reports. -/
def pipelineENSEMBLE_WEIGHTS : EnsembleWeights :=
  { autoencoder := 0.25
    lstm := 0.25
    xgboost := 0.20
    randomforest := 0.15
    isolationforest := 0.15 }

/-- Sum of the five weights of a weight record. -/
def EnsembleWeights.total (w : EnsembleWeights) : ℚ :=
  w.autoencoder + w.lstm + w.xgboost + w.randomforest + w.isolationforest

/-- `ensemble_score = Σ (model_score × weight)`, the weighted-sum formula the
backend applies to the five model scores. -/
def ensembleScore (w : EnsembleWeights) (s : ModelScores) : ℚ :=
  w.autoencoder * s.autoencoder + w.lstm * s.lstm + w.xgboost * s.xgboost +
    w.randomforest * s.randomforest + w.isolationforest * s.isolationforest

/-- The backend's `CLASSIFICATION_THRESHOLD = 0.435`. -/
def CLASSIFICATION_THRESHOLD : ℚ := 0.435

/-- The binary theft classification,
`ensemble_prediction = (ensemble_score > threshold).astype(int)`:
a strict comparison of the ensemble score against the threshold. -/
def ensemblePrediction (score threshold : ℚ) : ℕ :=
  if score > threshold then 1 else 0

/-- The four risk categories. -/
inductive RiskCategory where
  | Minimal
  | Low
  | Medium
  | High
  deriving DecidableEq, Repr

/-- Numeric rank of a risk category in the order
Minimal < Low < Medium < High. -/
def RiskCategory.rank : RiskCategory → ℕ
  | .Minimal => 0
  | .Low => 1
  | .Medium => 2
  | .High => 3

/-- `get_risk_category`: `High` if `ensemble_score > 0.7`, else `Medium` if
`> 0.4`, else `Low` if `> 0.2`, else `Minimal`. -/
def get_risk_category (ensemble_score : ℚ) : RiskCategory :=
  if ensemble_score > 0.7 then .High
  else if ensemble_score > 0.4 then .Medium
  else if ensemble_score > 0.2 then .Low
  else .Minimal

/-- C1: the ensemble score is the weighted sum of the five model scores with
weights autoencoder 0.25, lstm 0.25, xgboost 0.20, randomforest 0.15,
isolationforest 0.15; the `ENSEMBLE_WEIGHTS` record reported by
`GET /api/pipeline` equals exactly these five constants, and the five
weights sum exactly to 1. -/
theorem C1_ensemble_weights :
    pipelineENSEMBLE_WEIGHTS = ENSEMBLE_WEIGHTS ∧
    ENSEMBLE_WEIGHTS.autoencoder = 0.25 ∧
    ENSEMBLE_WEIGHTS.lstm = 0.25 ∧
    ENSEMBLE_WEIGHTS.xgboost = 0.20 ∧
    ENSEMBLE_WEIGHTS.randomforest = 0.15 ∧
    ENSEMBLE_WEIGHTS.isolationforest = 0.15 ∧
    ENSEMBLE_WEIGHTS.total = 1 ∧
    ∀ s : ModelScores,
      ensembleScore ENSEMBLE_WEIGHTS s =
        0.25 * s.autoencoder + 0.25 * s.lstm + 0.20 * s.xgboost +
          0.15 * s.randomforest + 0.15 * s.isolationforest := by
  refine ⟨rfl, rfl, rfl, rfl, rfl, rfl, by norm_num [EnsembleWeights.total, ENSEMBLE_WEIGHTS], ?_⟩
  intro s
  simp [ensembleScore, ENSEMBLE_WEIGHTS]

/-- C2 counterexample: a consumer whose ensemble score equals the
classification threshold exactly is NOT flagged as theft, because the code
compares with a strict `>`; so `prediction = ensemble_score >= threshold`
fails at score = threshold = 0.435. -/
theorem C2_threshold_counterexample :
    ¬ (ensemblePrediction CLASSIFICATION_THRESHOLD CLASSIFICATION_THRESHOLD = 1 ↔
        CLASSIFICATION_THRESHOLD ≥ CLASSIFICATION_THRESHOLD) := by
  intro h
  have h1 : ensemblePrediction CLASSIFICATION_THRESHOLD CLASSIFICATION_THRESHOLD = 1 :=
    h.mpr le_rfl
  have h0 : ensemblePrediction CLASSIFICATION_THRESHOLD CLASSIFICATION_THRESHOLD = 0 := by
    simp [ensemblePrediction]
  omega

/-- C2 amended: for every consumer, the binary theft prediction is 1 exactly
when the ensemble score is strictly greater than the classification
threshold, and 0 otherwise; in particular a consumer whose ensemble score
equals the threshold exactly is not flagged as theft. -/
theorem C2_threshold_classification :
    (∀ score threshold : ℚ,
      (ensemblePrediction score threshold = 1 ↔ score > threshold) ∧
      (ensemblePrediction score threshold = 0 ↔ ¬ score > threshold)) ∧
    ensemblePrediction CLASSIFICATION_THRESHOLD CLASSIFICATION_THRESHOLD = 0 := by
  refine ⟨fun score threshold => ?_, by simp [ensemblePrediction]⟩
  unfold ensemblePrediction
  by_cases h : score > threshold <;> simp [h]

/-- C3: the risk-bucketing function is total and exhaustive over the four
categories — for every score s it returns High iff s > 0.7, Medium iff
0.4 < s ≤ 0.7, Low iff 0.2 < s ≤ 0.4, Minimal iff s ≤ 0.2 — and it is
monotone with respect to the order Minimal < Low < Medium < High. -/
theorem C3_risk_bucketing :
    (∀ s : ℚ,
      (get_risk_category s = .High ↔ 0.7 < s) ∧
      (get_risk_category s = .Medium ↔ 0.4 < s ∧ s ≤ 0.7) ∧
      (get_risk_category s = .Low ↔ 0.2 < s ∧ s ≤ 0.4) ∧
      (get_risk_category s = .Minimal ↔ s ≤ 0.2)) ∧
    ∀ s1 s2 : ℚ, s1 ≤ s2 →
      (get_risk_category s1).rank ≤ (get_risk_category s2).rank := by
  have hHigh : ∀ s : ℚ, get_risk_category s = RiskCategory.High ↔ 0.7 < s := by
    intro s; unfold get_risk_category
    split_ifs with h1 h2 h3 <;> simp_all
  have hMedium : ∀ s : ℚ,
      get_risk_category s = RiskCategory.Medium ↔ 0.4 < s ∧ s ≤ 0.7 := by
    intro s; unfold get_risk_category
    split_ifs with h1 h2 h3 <;> simp_all
  have hLow : ∀ s : ℚ,
      get_risk_category s = RiskCategory.Low ↔ 0.2 < s ∧ s ≤ 0.4 := by
    intro s; unfold get_risk_category
    split_ifs with h1 h2 h3 <;> simp_all <;>
      first
        | linarith
        | (intro h; linarith)
  have hMinimal : ∀ s : ℚ, get_risk_category s = RiskCategory.Minimal ↔ s ≤ 0.2 := by
    intro s; unfold get_risk_category
    split_ifs with h1 h2 h3 <;> simp_all <;> linarith
  constructor
  · exact fun s => ⟨hHigh s, hMedium s, hLow s, hMinimal s⟩
  · intro s1 s2 hle
    unfold get_risk_category
    rcases lt_or_le (0.7 : ℚ) s1 with h7 | h7
    · have : (0.7 : ℚ) < s2 := lt_of_lt_of_le h7 hle
      simp [h7, this, RiskCategory.rank]
    · rcases lt_or_le (0.4 : ℚ) s1 with h4 | h4
      · have : (0.4 : ℚ) < s2 := lt_of_lt_of_le h4 hle
        by_cases h7b : (0.7 : ℚ) < s2 <;>
          simp [h7, h4, h7b, this, not_lt.mpr h7, RiskCategory.rank]
      · rcases lt_or_le (0.2 : ℚ) s1 with h2 | h2
        · have h2b : (0.2 : ℚ) < s2 := lt_of_lt_of_le h2 hle
          by_cases h7b : (0.7 : ℚ) < s2 <;> by_cases h4b : (0.4 : ℚ) < s2 <;>
            simp [not_lt.mpr h7, not_lt.mpr h4, h2, h7b, h4b, h2b, RiskCategory.rank]
        · by_cases h7b : (0.7 : ℚ) < s2 <;> by_cases h4b : (0.4 : ℚ) < s2 <;>
            by_cases h2b : (0.2 : ℚ) < s2 <;>
            simp [not_lt.mpr h7, not_lt.mpr h4, not_lt.mpr h2, h7b, h4b, h2b, RiskCategory.rank]

/-- C3 witness: the bucketing equivalences and monotonicity instantiated at
the concrete scores 0.5 and 0.8. -/
theorem C3_risk_bucketing_witness :
    (get_risk_category 0.5 = .Medium ↔ (0.4 : ℚ) < 0.5 ∧ (0.5 : ℚ) ≤ 0.7) ∧
    (get_risk_category 0.5).rank ≤ (get_risk_category 0.8).rank :=
  ⟨(C3_risk_bucketing.1 0.5).2.1, C3_risk_bucketing.2 0.5 0.8 (by norm_num)⟩

/-- C4: if each of the five model scores lies in [0,1] then the weighted
ensemble score lies in [0,1], the weights being nonnegative with sum
exactly 1 in exact rational arithmetic. -/
theorem C4_ensemble_score_range (s : ModelScores)
    (ha0 : 0 ≤ s.autoencoder) (ha1 : s.autoencoder ≤ 1)
    (hl0 : 0 ≤ s.lstm) (hl1 : s.lstm ≤ 1)
    (hx0 : 0 ≤ s.xgboost) (hx1 : s.xgboost ≤ 1)
    (hr0 : 0 ≤ s.randomforest) (hr1 : s.randomforest ≤ 1)
    (hi0 : 0 ≤ s.isolationforest) (hi1 : s.isolationforest ≤ 1) :
    0 ≤ ensembleScore ENSEMBLE_WEIGHTS s ∧ ensembleScore ENSEMBLE_WEIGHTS s ≤ 1 := by
  have hform := C1_ensemble_weights.2.2.2.2.2.2.2 s
  rw [hform]
  constructor <;> nlinarith

/-- C4 witness: the range theorem instantiated at the all-ones score tuple,
where the ensemble score is exactly 1. -/
theorem C4_ensemble_score_range_witness :
    0 ≤ ensembleScore ENSEMBLE_WEIGHTS ⟨1, 1, 1, 1, 1⟩ ∧
      ensembleScore ENSEMBLE_WEIGHTS ⟨1, 1, 1, 1, 1⟩ ≤ 1 :=
  C4_ensemble_score_range ⟨1, 1, 1, 1, 1⟩ (by norm_num) (by norm_num) (by norm_num)
    (by norm_num) (by norm_num) (by norm_num) (by norm_num) (by norm_num)
    (by norm_num) (by norm_num)

/-- C7: the scoring, thresholding, and bucketing pipeline is deterministic —
equal five-tuples of model scores and equal thresholds yield equal ensemble
scores, equal binary predictions, and equal risk categories. -/
theorem C7_pipeline_deterministic (s1 s2 : ModelScores) (t1 t2 : ℚ)
    (hs : s1 = s2) (ht : t1 = t2) :
    ensembleScore ENSEMBLE_WEIGHTS s1 = ensembleScore ENSEMBLE_WEIGHTS s2 ∧
    ensemblePrediction (ensembleScore ENSEMBLE_WEIGHTS s1) t1 =
      ensemblePrediction (ensembleScore ENSEMBLE_WEIGHTS s2) t2 ∧
    get_risk_category (ensembleScore ENSEMBLE_WEIGHTS s1) =
      get_risk_category (ensembleScore ENSEMBLE_WEIGHTS s2) := by
  subst hs; subst ht
  exact ⟨rfl, rfl, rfl⟩

/-- C7 witness: determinism instantiated at a concrete score tuple and the
configured threshold. -/
theorem C7_pipeline_deterministic_witness :
    ensembleScore ENSEMBLE_WEIGHTS ⟨0.5, 0.5, 0.5, 0.5, 0.5⟩ =
      ensembleScore ENSEMBLE_WEIGHTS ⟨0.5, 0.5, 0.5, 0.5, 0.5⟩ ∧
    ensemblePrediction (ensembleScore ENSEMBLE_WEIGHTS ⟨0.5, 0.5, 0.5, 0.5, 0.5⟩)
        CLASSIFICATION_THRESHOLD =
      ensemblePrediction (ensembleScore ENSEMBLE_WEIGHTS ⟨0.5, 0.5, 0.5, 0.5, 0.5⟩)
        CLASSIFICATION_THRESHOLD ∧
    get_risk_category (ensembleScore ENSEMBLE_WEIGHTS ⟨0.5, 0.5, 0.5, 0.5, 0.5⟩) =
      get_risk_category (ensembleScore ENSEMBLE_WEIGHTS ⟨0.5, 0.5, 0.5, 0.5, 0.5⟩) :=
  C7_pipeline_deterministic ⟨0.5, 0.5, 0.5, 0.5, 0.5⟩ ⟨0.5, 0.5, 0.5, 0.5, 0.5⟩
    CLASSIFICATION_THRESHOLD CLASSIFICATION_THRESHOLD rfl rfl

/-! ## POST /api/predict -/

/-- One element of the `predictions` array returned by the Python backend
(the route's `PredictionResult` interface). -/
structure PredictionResult where
  consumer_id : String
  ensemble_score : ℚ
  risk_category : String
  ensemble_prediction : ℚ
  autoencoder_score : ℚ
  lstm_score : ℚ
  xgboost_score : ℚ
  randomforest_score : ℚ
  isolationforest_score : ℚ
  deriving DecidableEq, Repr

/-- The `summary` object built by the predict route. -/
structure Summary where
  total : ℕ
  theft_detected : ℕ
  high_risk : ℕ
  medium_risk : ℕ
  low_risk : ℕ
  minimal_risk : ℕ
  deriving DecidableEq, Repr

/-- The summary computed over the backend's predictions: `total` is the array
length and each other field is a `filter(...).length` count. -/
def mkSummary (predictions : List PredictionResult) : Summary :=
  { total := predictions.length
    theft_detected := predictions.countP (fun p => p.ensemble_prediction = 1)
    high_risk := predictions.countP (fun p => p.risk_category = "High")
    medium_risk := predictions.countP (fun p => p.risk_category = "Medium")
    low_risk := predictions.countP (fun p => p.risk_category = "Low")
    minimal_risk := predictions.countP (fun p => p.risk_category = "Minimal") }

/-- The file extracted from the multipart form data: only its name matters
to the route's validation. -/
structure UploadedFile where
  name : String
  deriving DecidableEq, Repr

/-- Outcome of the route's `fetch` to the Python `/predict` endpoint:
either the fetch itself throws, or a response arrives with an `ok` flag
and, when ok, a parsed `predictions` array. -/
inductive PythonOutcome where
  | fetchError
  | response (ok : Bool) (predictions : List PredictionResult)
  deriving DecidableEq, Repr

/-- Responses the predict route can produce. -/
inductive PredictResponse where
  | success (predictions : List PredictionResult) (summary : Summary)
  | clientError (status : ℕ)
  | serviceUnavailable (status : ℕ)
  deriving DecidableEq, Repr

/-- The route's `file.name.endsWith('.csv')` check, modelled over the
underlying character list. -/
def hasCsvSuffix (name : String) : Bool :=
  ".csv".data.isSuffixOf name.data

/-- The predict route handler: 400 when no file or the name does not end in
`.csv`; otherwise forwards to Python and returns 503 when that call throws
or the response is not ok, and the predictions plus summary on success. -/
def predictPOST (file : Option UploadedFile) (python : PythonOutcome) :
    PredictResponse :=
  match file with
  | none => .clientError 400
  | some f =>
    if hasCsvSuffix f.name = false then .clientError 400
    else
      match python with
      | .fetchError => .serviceUnavailable 503
      | .response ok preds =>
        if ok then .success preds (mkSummary preds)
        else .serviceUnavailable 503

/-- C5: POST /api/predict returns 400 when the form has no file or the file
name does not end in `.csv` — independently of the Python outcome, i.e.
without contacting the Python service — returns 503 when the Python call
throws or responds non-ok, and returns the backend's predictions on
success. -/
theorem C5_predict_route :
    (∀ python, predictPOST none python = .clientError 400) ∧
    (∀ f python, hasCsvSuffix f.name = false →
      predictPOST (some f) python = .clientError 400) ∧
    (∀ f, hasCsvSuffix f.name = true →
      predictPOST (some f) .fetchError = .serviceUnavailable 503) ∧
    (∀ f preds, hasCsvSuffix f.name = true →
      predictPOST (some f) (.response false preds) = .serviceUnavailable 503) ∧
    (∀ f preds, hasCsvSuffix f.name = true →
      predictPOST (some f) (.response true preds) =
        .success preds (mkSummary preds)) := by
  refine ⟨fun python => rfl, ?_, ?_, ?_, ?_⟩
  · intro f python h
    simp [predictPOST, h]
  · intro f h
    simp [predictPOST, h]
  · intro f preds h
    simp [predictPOST, h]
  · intro f preds h
    simp [predictPOST, h]

/-- C5 witness: the route's branches evaluated at concrete file names
`data.txt` and `data.csv`. -/
theorem C5_predict_route_witness :
    predictPOST (some ⟨"data.txt"⟩) (.response true []) = .clientError 400 ∧
    predictPOST (some ⟨"data.csv"⟩) .fetchError = .serviceUnavailable 503 ∧
    predictPOST (some ⟨"data.csv"⟩) (.response false []) = .serviceUnavailable 503 ∧
    predictPOST (some ⟨"data.csv"⟩) (.response true []) =
      .success [] (mkSummary []) :=
  ⟨C5_predict_route.2.1 ⟨"data.txt"⟩ (.response true []) (by decide),
   C5_predict_route.2.2.1 ⟨"data.csv"⟩ (by decide),
   C5_predict_route.2.2.2.1 ⟨"data.csv"⟩ [] (by decide),
   C5_predict_route.2.2.2.2 ⟨"data.csv"⟩ [] (by decide)⟩

/-- The four risk-category names counted by the summary. -/
def riskCategoryNames : List String := ["Minimal", "Low", "Medium", "High"]

lemma mkSummary_categories_sum (preds : List PredictionResult)
    (h : ∀ p ∈ preds, p.risk_category ∈ riskCategoryNames) :
    (mkSummary preds).high_risk + (mkSummary preds).medium_risk +
        (mkSummary preds).low_risk + (mkSummary preds).minimal_risk =
      (mkSummary preds).total := by
  simp only [mkSummary]
  induction preds with
  | nil => simp
  | cons p ps ih =>
    have hp := h p (by simp)
    have hps := ih fun q hq => h q (by simp [hq])
    simp only [riskCategoryNames, List.mem_cons, List.mem_singleton,
      List.not_mem_nil, or_false] at hp
    simp only [List.countP_cons, List.length_cons]
    rcases hp with h1 | h1 | h1 | h1 <;> simp [h1] <;> omega

/-- C9: every successful response of POST /api/predict has `summary.total`
equal to the number of predictions returned, `summary.theft_detected` at
most `summary.total`, and — when every prediction's risk category is one of
Minimal/Low/Medium/High — the four per-category counts sum to the total. -/
theorem C9_predict_summary (file : Option UploadedFile) (python : PythonOutcome)
    (preds : List PredictionResult) (s : Summary)
    (hsucc : predictPOST file python = .success preds s) :
    s.total = preds.length ∧
    s.theft_detected ≤ s.total ∧
    ((∀ p ∈ preds, p.risk_category ∈ riskCategoryNames) →
      s.high_risk + s.medium_risk + s.low_risk + s.minimal_risk = s.total) := by
  have hs : s = mkSummary preds := by
    match file with
    | none => simp [predictPOST] at hsucc
    | some f =>
      by_cases hn : hasCsvSuffix f.name = false
      · simp [predictPOST, hn] at hsucc
      · match python with
        | .fetchError => simp [predictPOST, hn] at hsucc
        | .response ok ps =>
          cases ok
          · simp [predictPOST, hn] at hsucc
          · simp only [predictPOST, hn, if_neg hn, if_pos rfl] at hsucc
            cases hsucc
            rfl
  subst hs
  refine ⟨rfl, List.countP_le_length _, fun hcat => mkSummary_categories_sum preds hcat⟩

/-- C9 witness: the invariants evaluated on a concrete successful response
with one High-risk prediction. -/
theorem C9_predict_summary_witness :
    (mkSummary [⟨"C001", 0.8, "High", 1, 0.8, 0.8, 0.8, 0.8, 0.8⟩]).total = 1 ∧
    (mkSummary [⟨"C001", 0.8, "High", 1, 0.8, 0.8, 0.8, 0.8, 0.8⟩]).theft_detected ≤
      (mkSummary [⟨"C001", 0.8, "High", 1, 0.8, 0.8, 0.8, 0.8, 0.8⟩]).total ∧
    ((∀ p ∈ [(⟨"C001", 0.8, "High", 1, 0.8, 0.8, 0.8, 0.8, 0.8⟩ : PredictionResult)],
        p.risk_category ∈ riskCategoryNames) →
      (mkSummary [⟨"C001", 0.8, "High", 1, 0.8, 0.8, 0.8, 0.8, 0.8⟩]).high_risk +
          (mkSummary [⟨"C001", 0.8, "High", 1, 0.8, 0.8, 0.8, 0.8, 0.8⟩]).medium_risk +
          (mkSummary [⟨"C001", 0.8, "High", 1, 0.8, 0.8, 0.8, 0.8, 0.8⟩]).low_risk +
          (mkSummary [⟨"C001", 0.8, "High", 1, 0.8, 0.8, 0.8, 0.8, 0.8⟩]).minimal_risk =
        (mkSummary [⟨"C001", 0.8, "High", 1, 0.8, 0.8, 0.8, 0.8, 0.8⟩]).total) := by
  have h := C9_predict_summary (some ⟨"data.csv"⟩)
    (.response true [⟨"C001", 0.8, "High", 1, 0.8, 0.8, 0.8, 0.8, 0.8⟩])
    [⟨"C001", 0.8, "High", 1, 0.8, 0.8, 0.8, 0.8, 0.8⟩]
    (mkSummary [⟨"C001", 0.8, "High", 1, 0.8, 0.8, 0.8, 0.8, 0.8⟩])
    (by rfl)
  simpa using h

/-! ## POST /api/generate-data -/

/-- The JSON request body destructured by the generate-data route; each field
is absent (`none`) or a number. -/
structure GenBody where
  num_consumers : Option ℚ
  days : Option ℚ
  theft_rate : Option ℚ
  deriving DecidableEq, Repr

/-- JavaScript falsiness of a possibly-absent number (`!x`): true for a
missing value and for 0. -/
def jsFalsy (v : Option ℚ) : Bool :=
  match v with
  | none => true
  | some q => q = 0

/-- JavaScript `x < c` on a possibly-absent number: comparisons against
`undefined` are false. -/
def jsLt (v : Option ℚ) (c : ℚ) : Bool :=
  match v with
  | none => false
  | some q => q < c

/-- JavaScript `x > c` on a possibly-absent number: comparisons against
`undefined` are false. -/
def jsGt (v : Option ℚ) (c : ℚ) : Bool :=
  match v with
  | none => false
  | some q => c < q

/-- Responses of the generate-data route's validation stage: either 400 with
an error message, or the body is forwarded to the Python backend. -/
inductive GenResult where
  | badRequest (status : ℕ) (message : String)
  | forwarded (num_consumers days theft_rate : Option ℚ)
  deriving DecidableEq, Repr

/-- The generate-data route's validation: `!num_consumers || num_consumers
< 10 || num_consumers > 1000`, then `!days || days < 1 || days > 365`, then
`theft_rate < 0 || theft_rate > 0.5`; a body passing all three checks is
forwarded to the Python backend. -/
def generateDataPOST (b : GenBody) : GenResult :=
  if jsFalsy b.num_consumers || jsLt b.num_consumers 10 || jsGt b.num_consumers 1000 then
    .badRequest 400 "Number of consumers must be between 10 and 1000"
  else if jsFalsy b.days || jsLt b.days 1 || jsGt b.days 365 then
    .badRequest 400 "Number of days must be between 1 and 365"
  else if jsLt b.theft_rate 0 || jsGt b.theft_rate 0.5 then
    .badRequest 400 "Theft rate must be between 0 and 0.5"
  else
    .forwarded b.num_consumers b.days b.theft_rate

/-- C10: the generate-data route returns 400 whenever `num_consumers` is
missing, zero, below 10 or above 1000, or `days` is missing, zero, below 1
or above 365, or `theft_rate` is present and below 0 or above 0.5; a body
with valid `num_consumers` and `days` and no `theft_rate` at all is not
rejected and is forwarded to the Python backend. -/
theorem C10_generate_data_validation (b : GenBody) :
    ((b.num_consumers = none ∨ b.num_consumers = some 0 ∨
        (∃ q, b.num_consumers = some q ∧ (q < 10 ∨ 1000 < q))) →
      ∃ msg, generateDataPOST b = .badRequest 400 msg) ∧
    ((b.days = none ∨ b.days = some 0 ∨
        (∃ q, b.days = some q ∧ (q < 1 ∨ 365 < q))) →
      ∃ msg, generateDataPOST b = .badRequest 400 msg) ∧
    ((∃ q, b.theft_rate = some q ∧ (q < 0 ∨ 0.5 < q)) →
      ∃ msg, generateDataPOST b = .badRequest 400 msg) ∧
    ((∃ qn, b.num_consumers = some qn ∧ 10 ≤ qn ∧ qn ≤ 1000) →
      (∃ qd, b.days = some qd ∧ 1 ≤ qd ∧ qd ≤ 365) →
      b.theft_rate = none →
      generateDataPOST b = .forwarded b.num_consumers b.days none) := by
  refine ⟨?_, ?_, ?_, ?_⟩
  · intro h
    have hfail : (jsFalsy b.num_consumers || jsLt b.num_consumers 10 ||
        jsGt b.num_consumers 1000) = true := by
      rcases h with h | h | ⟨q, hq, hlt | hgt⟩
      · simp [h, jsFalsy]
      · simp [h, jsFalsy]
      · simp [hq, jsLt, hlt]
      · simp [hq, jsGt, hgt]
    exact ⟨"Number of consumers must be between 10 and 1000",
      by simp [generateDataPOST, hfail]⟩
  · intro h
    by_cases hn : (jsFalsy b.num_consumers || jsLt b.num_consumers 10 ||
        jsGt b.num_consumers 1000) = true
    · exact ⟨"Number of consumers must be between 10 and 1000",
        by simp [generateDataPOST, hn]⟩
    · have hfail : (jsFalsy b.days || jsLt b.days 1 || jsGt b.days 365) = true := by
        rcases h with h | h | ⟨q, hq, hlt | hgt⟩
        · simp [h, jsFalsy]
        · simp [h, jsFalsy]
        · simp [hq, jsLt, hlt]
        · simp [hq, jsGt, hgt]
      refine ⟨"Number of days must be between 1 and 365", ?_⟩
      simp only [generateDataPOST]
      rw [if_neg (by simp_all), if_pos hfail]
  · rintro ⟨q, hq, hbad⟩
    by_cases hn : (jsFalsy b.num_consumers || jsLt b.num_consumers 10 ||
        jsGt b.num_consumers 1000) = true
    · exact ⟨"Number of consumers must be between 10 and 1000",
        by simp [generateDataPOST, hn]⟩
    · by_cases hd : (jsFalsy b.days || jsLt b.days 1 || jsGt b.days 365) = true
      · refine ⟨"Number of days must be between 1 and 365", ?_⟩
        simp only [generateDataPOST]
        rw [if_neg (by simp_all), if_pos hd]
      · have hfail : (jsLt b.theft_rate 0 || jsGt b.theft_rate 0.5) = true := by
          rcases hbad with hlt | hgt
          · simp [hq, jsLt, hlt]
          · simp [hq, jsGt, hgt]
        refine ⟨"Theft rate must be between 0 and 0.5", ?_⟩
        simp only [generateDataPOST]
        rw [if_neg (by simp_all), if_neg (by simp_all), if_pos hfail]
  · rintro ⟨qn, hqn, hn1, hn2⟩ ⟨qd, hqd, hd1, hd2⟩ hrate
    have hn0 : ¬ qn = 0 := by intro h0; rw [h0] at hn1; norm_num at hn1
    have hnA : ¬ qn < 10 := not_lt.mpr hn1
    have hnB : ¬ 1000 < qn := not_lt.mpr hn2
    have hd0 : ¬ qd = 0 := by intro h0; rw [h0] at hd1; norm_num at hd1
    have hdA : ¬ qd < 1 := not_lt.mpr hd1
    have hdB : ¬ 365 < qd := not_lt.mpr hd2
    have hnum : (jsFalsy b.num_consumers || jsLt b.num_consumers 10 ||
        jsGt b.num_consumers 1000) = false := by
      simp [hqn, jsFalsy, jsLt, jsGt, hn0, hnA, hnB]
    have hdays : (jsFalsy b.days || jsLt b.days 1 || jsGt b.days 365) = false := by
      simp [hqd, jsFalsy, jsLt, jsGt, hd0, hdA, hdB]
    have hrate2 : (jsLt b.theft_rate 0 || jsGt b.theft_rate 0.5) = false := by
      simp [hrate, jsLt, jsGt]
    simp only [generateDataPOST]
    rw [if_neg (by simp [hnum]), if_neg (by simp [hdays]), if_neg (by simp [hrate2]), hrate]

/-- C10 witness: a body with 50 consumers, 30 days and no theft rate is
forwarded, and one with 5 consumers is rejected with status 400. -/
theorem C10_generate_data_validation_witness :
    generateDataPOST ⟨some 50, some 30, none⟩ = .forwarded (some 50) (some 30) none ∧
    ∃ msg, generateDataPOST ⟨some 5, some 30, none⟩ = .badRequest 400 msg :=
  ⟨(C10_generate_data_validation ⟨some 50, some 30, none⟩).2.2.2
      ⟨50, rfl, by norm_num, by norm_num⟩ ⟨30, rfl, by norm_num, by norm_num⟩ rfl,
   (C10_generate_data_validation ⟨some 5, some 30, none⟩).1
      (Or.inr (Or.inr ⟨5, rfl, Or.inl (by norm_num)⟩))⟩

/-! ## GET /api/consumers -/

/-- One element of the `predictions` array from `GET /predictions/latest`
on the Python backend; fields the transform guards with `??` or `||` are
optional. -/
structure BackendPrediction where
  consumer_id : String
  ensemble_score : ℚ
  risk_category : String
  ensemble_prediction : ℚ
  true_theft_label : Option ℚ
  autoencoder_score : ℚ
  lstm_score : ℚ
  xgboost_score : ℚ
  randomforest_score : ℚ
  isolationforest_score : ℚ
  rule_score : Option ℚ
  detected_rules : Option (List String)
  rule_count : Option ℚ
  deriving DecidableEq, Repr

/-- The consumer-risk-score row the route builds from one backend
prediction. -/
structure ConsumerRow where
  consumer_id : String
  ensemble_score : ℚ
  risk_category : String
  ensemble_prediction : ℚ
  true_theft_label : ℚ
  autoencoder_score : ℚ
  lstm_score : ℚ
  xgboost_score : ℚ
  randomforest_score : ℚ
  isolationforest_score : ℚ
  rule_score : ℚ
  detected_rules : List String
  rule_count : ℚ
  detection_date : String
  deriving DecidableEq, Repr

/-- The route's per-prediction transform: `true_theft_label` falls back to
the prediction via `??`, `rule_score`/`rule_count` fall back to 0 via `||`,
`detected_rules` falls back to `[]`, and `detection_date` is the current
date string. -/
def transformPrediction (today : String) (pred : BackendPrediction) : ConsumerRow :=
  { consumer_id := pred.consumer_id
    ensemble_score := pred.ensemble_score
    risk_category := pred.risk_category
    ensemble_prediction := pred.ensemble_prediction
    true_theft_label := pred.true_theft_label.getD pred.ensemble_prediction
    autoencoder_score := pred.autoencoder_score
    lstm_score := pred.lstm_score
    xgboost_score := pred.xgboost_score
    randomforest_score := pred.randomforest_score
    isolationforest_score := pred.isolationforest_score
    rule_score := pred.rule_score.getD 0
    detected_rules := pred.detected_rules.getD []
    rule_count := pred.rule_count.getD 0
    detection_date := today }

/-- One parsed CSV row: the trimmed headers paired with the trimmed values,
missing values defaulting to the empty string. -/
def parseCsvRow (headers : List String) (line : String) : List (String × String) :=
  headers.enum.map fun p =>
    (p.2.trim, ((line.splitOn ",").get? p.1).map String.trim |>.getD "")

/-- The route's fallback CSV parsing: split on newlines, take the first line
as headers, keep the non-blank remaining lines and turn each into a
header-to-value row. -/
def parseConsumersCsv (csvData : String) : List (List (String × String)) :=
  let lines := csvData.splitOn "\n"
  let headers := (lines.headD "").splitOn ","
  ((lines.drop 1).filter fun l => l.trim ≠ "").map (parseCsvRow headers)

/-- Outcome of the route's `fetch` of `/predictions/latest`: the fetch throws,
or a response arrives with a status code and (when parseable) predictions. -/
inductive BackendFetch where
  | failure
  | response (status : ℕ) (predictions : List BackendPrediction)
  deriving DecidableEq, Repr

/-- Responses of the consumers route, tagged by data source. -/
inductive ConsumersResponse where
  | fromBackend (consumers : List ConsumerRow)
  | fromFile (rows : List (List (String × String)))
  | error (status : ℕ)
  deriving DecidableEq, Repr

/-- The consumers route handler: an ok (2xx) backend response is transformed
and returned; a 404 falls back to reading `outputs/consumer_risk_scores.csv`
(404 error when that read throws); any other non-ok status is thrown and,
like a fetch failure, lands in the catch block, which attempts the same CSV
fallback and returns a 500 error when the read throws. The file argument is
`none` when reading the CSV from disk throws. -/
def consumersGET (today : String) (backend : BackendFetch) (file : Option String) :
    ConsumersResponse :=
  match backend with
  | .failure =>
    match file with
    | some csv => .fromFile (parseConsumersCsv csv)
    | none => .error 500
  | .response status preds =>
    if 200 ≤ status ∧ status ≤ 299 then
      .fromBackend (preds.map (transformPrediction today))
    else if status = 404 then
      match file with
      | some csv => .fromFile (parseConsumersCsv csv)
      | none => .error 404
    else
      match file with
      | some csv => .fromFile (parseConsumersCsv csv)
      | none => .error 500

/-- C6: when the backend responds 404 or the fetch fails, the consumers route
falls back to the on-disk CSV and returns its parsed rows; an error response
occurs only when that file read also fails — 404 in the backend-404 case and
500 in the fetch-failure case — and no response ever mixes backend data with
file data. -/
theorem C6_consumers_fallback :
    (∀ today preds csv, consumersGET today (.response 404 preds) (some csv) =
      .fromFile (parseConsumersCsv csv)) ∧
    (∀ today preds, consumersGET today (.response 404 preds) none = .error 404) ∧
    (∀ today csv, consumersGET today .failure (some csv) =
      .fromFile (parseConsumersCsv csv)) ∧
    (∀ today, consumersGET today .failure none = .error 500) ∧
    (∀ today backend file st, consumersGET today backend file = .error st →
      file = none) ∧
    (∀ today backend file,
      ¬ ((∃ cs, consumersGET today backend file = .fromBackend cs) ∧
         (∃ rows, consumersGET today backend file = .fromFile rows))) := by
  refine ⟨?_, ?_, ?_, fun today => rfl, ?_, ?_⟩
  · intro today preds csv
    simp [consumersGET]
  · intro today preds
    simp [consumersGET]
  · intro today csv
    rfl
  · intro today backend file st herr
    match backend, file with
    | .failure, none => rfl
    | .failure, some csv => simp [consumersGET] at herr
    | .response status preds, none => rfl
    | .response status preds, some csv =>
      simp only [consumersGET] at herr
      split_ifs at herr
  · rintro today backend file ⟨⟨cs, h1⟩, ⟨rows, h2⟩⟩
    rw [h1] at h2
    exact ConsumersResponse.noConfusion h2

/-- C6 witness: the fallback branches evaluated at a concrete two-column CSV
and at a failed fetch with no readable file. -/
theorem C6_consumers_fallback_witness :
    consumersGET "2025-01-01" (.response 404 []) (some "a,b\n1,2") =
      .fromFile (parseConsumersCsv "a,b\n1,2") ∧
    consumersGET "2025-01-01" .failure none = .error 500 ∧
    (none : Option String) = none ∧
    ¬ ((∃ cs, consumersGET "2025-01-01" .failure none = .fromBackend cs) ∧
       (∃ rows, consumersGET "2025-01-01" .failure none = .fromFile rows)) :=
  ⟨C6_consumers_fallback.1 "2025-01-01" [] "a,b\n1,2",
   C6_consumers_fallback.2.2.2.1 "2025-01-01",
   C6_consumers_fallback.2.2.2.2.1 "2025-01-01" .failure none 500 rfl,
   C6_consumers_fallback.2.2.2.2.2 "2025-01-01" .failure none⟩


/-! ## calculateConfusionMatrix (models page) -/

/-- The models page's `Consumer` record; `true_theft_label` may be absent at
runtime, which the page guards with `!== undefined` and `??`. -/
structure Consumer where
  consumer_id : String
  ensemble_prediction : ℚ
  true_theft_label : Option ℚ
  ensemble_score : ℚ
  deriving DecidableEq, Repr

/-- The page's `ConfusionMatrixData` record. -/
structure ConfusionMatrixData where
  truePositive : ℕ
  falsePositive : ℕ
  trueNegative : ℕ
  falseNegative : ℕ
  accuracy : ℚ
  precision : ℚ
  «recall» : ℚ
  f1Score : ℚ
  hasGroundTruth : Bool
  deriving DecidableEq, Repr

/-- `const actual = consumer.true_theft_label ?? predicted`. -/
def actualLabel (c : Consumer) : ℚ :=
  c.true_theft_label.getD c.ensemble_prediction

/-- Guard of the true-positive branch: predicted 1 and actual 1. -/
def isTP (c : Consumer) : Bool :=
  c.ensemble_prediction = 1 ∧ actualLabel c = 1

/-- Guard of the false-positive branch: predicted 1 and actual 0. -/
def isFP (c : Consumer) : Bool :=
  c.ensemble_prediction = 1 ∧ actualLabel c = 0

/-- Guard of the true-negative branch: predicted 0 and actual 0. -/
def isTN (c : Consumer) : Bool :=
  c.ensemble_prediction = 0 ∧ actualLabel c = 0

/-- Guard of the false-negative branch: predicted 0 and actual 1. -/
def isFN (c : Consumer) : Bool :=
  c.ensemble_prediction = 0 ∧ actualLabel c = 1

/-- `data.some(c => c.true_theft_label !== undefined &&
c.true_theft_label !== c.ensemble_prediction)`. -/
def hasRealGroundTruth (data : List Consumer) : Bool :=
  data.any fun c =>
    match c.true_theft_label with
    | none => false
    | some l => l ≠ c.ensemble_prediction

/-- `total = truePositive + falsePositive + trueNegative + falseNegative`. -/
def cellTotal (data : List Consumer) : ℕ :=
  data.countP isTP + data.countP isFP + data.countP isTN + data.countP isFN

/-- `accuracy = total > 0 ? (TP + TN) / total * 100 : 0`. -/
def accuracyOf (data : List Consumer) : ℚ :=
  if 0 < cellTotal data then
    ((data.countP isTP : ℚ) + data.countP isTN) / (cellTotal data) * 100
  else 0

/-- `precision = (TP + FP) > 0 ? TP / (TP + FP) * 100 : 0`. -/
def precisionOf (data : List Consumer) : ℚ :=
  if 0 < data.countP isTP + data.countP isFP then
    (data.countP isTP : ℚ) / ((data.countP isTP : ℚ) + data.countP isFP) * 100
  else 0

/-- `recall = (TP + FN) > 0 ? TP / (TP + FN) * 100 : 0`. -/
def recallOf (data : List Consumer) : ℚ :=
  if 0 < data.countP isTP + data.countP isFN then
    (data.countP isTP : ℚ) / ((data.countP isTP : ℚ) + data.countP isFN) * 100
  else 0

/-- `f1Score = (precision + recall) > 0 ? 2*p*r/(p+r) : 0`. -/
def f1Of (data : List Consumer) : ℚ :=
  if 0 < precisionOf data + recallOf data then
    2 * precisionOf data * recallOf data / (precisionOf data + recallOf data)
  else 0

/-- The matrix the page builds for a non-empty consumer list: the four cell
counters incremented by the mutually exclusive `forEach` branches, and the
derived percentages. -/
def mkConfusionMatrix (data : List Consumer) : ConfusionMatrixData :=
  { truePositive := data.countP isTP
    falsePositive := data.countP isFP
    trueNegative := data.countP isTN
    falseNegative := data.countP isFN
    accuracy := accuracyOf data
    precision := precisionOf data
    «recall» := recallOf data
    f1Score := f1Of data
    hasGroundTruth := hasRealGroundTruth data }

/-- `calculateConfusionMatrix`: `null` for an empty list, otherwise the
computed matrix. -/
def calculateConfusionMatrix (data : List Consumer) : Option ConfusionMatrixData :=
  if data.length = 0 then none else some (mkConfusionMatrix data)

lemma cells_partition (data : List Consumer)
    (hpred : ∀ c ∈ data, c.ensemble_prediction = 0 ∨ c.ensemble_prediction = 1)
    (hlab : ∀ c ∈ data, ∀ l, c.true_theft_label = some l → l = 0 ∨ l = 1) :
    data.countP isTP + data.countP isFP + data.countP isTN + data.countP isFN =
      data.length := by
  induction data with
  | nil => simp
  | cons c cs ih =>
    have hc := hpred c (by simp)
    have ha : actualLabel c = 0 ∨ actualLabel c = 1 := by
      unfold actualLabel
      cases hl : c.true_theft_label with
      | none => simpa using hc
      | some l => simpa using hlab c (by simp) l hl
    have ihs := ih (fun q hq => hpred q (by simp [hq]))
      (fun q hq => hlab q (by simp [hq]))
    simp only [List.countP_cons, List.length_cons]
    rcases hc with hp | hp <;> rcases ha with haa | haa <;>
      simp [isTP, isFP, isTN, isFN, hp, haa] <;> omega

lemma actualLabel_eq_prediction (c : Consumer)
    (h : c.true_theft_label = none ∨ c.true_theft_label = some c.ensemble_prediction) :
    actualLabel c = c.ensemble_prediction := by
  rcases h with hl | hl <;> simp [actualLabel, hl]

/-- C8: for a non-empty consumer list whose predictions are 0/1 and whose
labels, when present, are 0/1, calculateConfusionMatrix returns a matrix
whose four cells sum to the list length; and when every label is absent or
equal to its prediction, falsePositive and falseNegative are 0, accuracy is
100 and hasGroundTruth is false. -/
theorem C8_confusion_matrix (data : List Consumer) (cm : ConfusionMatrixData)
    (hne : data ≠ [])
    (hpred : ∀ c ∈ data, c.ensemble_prediction = 0 ∨ c.ensemble_prediction = 1)
    (hlab : ∀ c ∈ data, ∀ l, c.true_theft_label = some l → l = 0 ∨ l = 1)
    (heq : calculateConfusionMatrix data = some cm) :
    cm.truePositive + cm.falsePositive + cm.trueNegative + cm.falseNegative =
      data.length ∧
    ((∀ c ∈ data, c.true_theft_label = none ∨
        c.true_theft_label = some c.ensemble_prediction) →
      cm.falsePositive = 0 ∧ cm.falseNegative = 0 ∧
      cm.accuracy = 100 ∧ cm.hasGroundTruth = false) := by
  have hlen : data.length ≠ 0 := by
    simpa using hne
  have hcm : cm = mkConfusionMatrix data := by
    simp only [calculateConfusionMatrix, if_neg hlen, Option.some_inj] at heq
    exact heq.symm
  subst hcm
  have hsum := cells_partition data hpred hlab
  refine ⟨hsum, fun hall => ?_⟩
  have hFP : data.countP isFP = 0 := by
    rw [List.countP_eq_zero]
    intro c hcmem
    unfold isFP
    rw [actualLabel_eq_prediction c (hall c hcmem)]
    simp only [decide_eq_true_eq]
    rintro ⟨h1, h2⟩
    rw [h1] at h2
    norm_num at h2
  have hFN : data.countP isFN = 0 := by
    rw [List.countP_eq_zero]
    intro c hcmem
    unfold isFN
    rw [actualLabel_eq_prediction c (hall c hcmem)]
    simp only [decide_eq_true_eq]
    rintro ⟨h1, h2⟩
    rw [h1] at h2
    norm_num at h2
  have hGT : hasRealGroundTruth data = false := by
    rw [hasRealGroundTruth, List.any_eq_false]
    intro c hcmem
    rcases hall c hcmem with hl | hl <;> simp [hl]
  have hacc : accuracyOf data = 100 := by
    have htot : cellTotal data = data.countP isTP + data.countP isTN := by
      unfold cellTotal
      omega
    have hpos : 0 < cellTotal data := by
      unfold cellTotal
      omega
    have hcast : ((data.countP isTP : ℚ) + data.countP isTN) ≠ 0 := by
      have h1 : 0 < data.countP isTP + data.countP isTN := by omega
      have h2 : (0 : ℚ) < (data.countP isTP : ℚ) + data.countP isTN := by
        exact_mod_cast h1
      linarith
    unfold accuracyOf
    rw [if_pos hpos, htot]
    push_cast
    rw [div_self hcast]
    norm_num
  exact ⟨hFP, hFN, hacc, hGT⟩

/-- C8 witness: the theorem evaluated on the one-element list with predicted
1 and no ground-truth label. -/
theorem C8_confusion_matrix_witness :
    (mkConfusionMatrix [⟨"C001", 1, none, 0.8⟩]).truePositive +
        (mkConfusionMatrix [⟨"C001", 1, none, 0.8⟩]).falsePositive +
        (mkConfusionMatrix [⟨"C001", 1, none, 0.8⟩]).trueNegative +
        (mkConfusionMatrix [⟨"C001", 1, none, 0.8⟩]).falseNegative = 1 ∧
    ((∀ c ∈ [(⟨"C001", 1, none, 0.8⟩ : Consumer)], c.true_theft_label = none ∨
        c.true_theft_label = some c.ensemble_prediction) →
      (mkConfusionMatrix [⟨"C001", 1, none, 0.8⟩]).falsePositive = 0 ∧
      (mkConfusionMatrix [⟨"C001", 1, none, 0.8⟩]).falseNegative = 0 ∧
      (mkConfusionMatrix [⟨"C001", 1, none, 0.8⟩]).accuracy = 100 ∧
      (mkConfusionMatrix [⟨"C001", 1, none, 0.8⟩]).hasGroundTruth = false) := by
  have h := C8_confusion_matrix [⟨"C001", 1, none, 0.8⟩]
    (mkConfusionMatrix [⟨"C001", 1, none, 0.8⟩])
    (by simp)
    (by intro c hc; simp at hc; simp [hc])
    (by intro c hc l hl; simp at hc; rw [hc] at hl; simp at hl)
    (by rfl)
  simpa using h

end TheftDetection
